import Mathlib

/-!
Verification of the request-construction and validation layer of the
sensing-garden client library (payload validators and resource-client
`add` operations), against its natural-language specification.

The repository ships the package's test suite; the package module itself
(`sensing_garden_client`) is not among the provided sources, so the
validators and payload builders below are modelled from the specification,
with the repository's own tests (`tests/test_edge_cases_validation.py`,
`tests/test_videos.py`) pinning down every point of behavior they assert.
A returned `Except.error` models an exception raised before any network
call; `Except.ok (endpoint, payload)` models the single `post` call the
operation performs, carrying the transmitted JSON body.
-/

namespace SensingGarden

/-- A Python/JSON-like runtime value as the client handles it.  Float
literals are kept opaque (`vNum` with their literal text): the client never
performs numeric arithmetic on payload values, it only checks container
shape and forwards values verbatim. -/
inductive PyVal where
  | vNone : PyVal
  | vBool (b : Bool) : PyVal
  | vInt (n : Int) : PyVal
  | vNum (lit : String) : PyVal
  | vStr (s : String) : PyVal
  | vBytes (bs : List Nat) : PyVal
  | vList (xs : List PyVal) : PyVal
  | vTuple (xs : List PyVal) : PyVal
  | vDict (kvs : List (String × PyVal)) : PyVal
deriving Repr

/-- A transmitted JSON body: an ordered mapping from field names to values,
as the Python client builds it (`dict` insertion order). -/
abbrev Payload := List (String × PyVal)

/-- The field names present in a payload. -/
def keys (p : Payload) : List String := p.map Prod.fst

/-- Whether a key-value list carries the given key. -/
def hasKey (kvs : List (String × PyVal)) (k : String) : Bool :=
  kvs.any (fun kv => kv.1 == k)

/-- The payload fragment contributed by one optional field: empty when the
caller passed `None`, a single entry otherwise. -/
def optEntry (k : String) (v : Option PyVal) : Payload :=
  match v with
  | Option.none => []
  | Option.some x => [(k, x)]

/-- Whether a value is a Python `dict`. -/
def isDict (v : PyVal) : Bool :=
  match v with
  | PyVal.vDict _ => true
  | _ => false

/-- Whether a value is a Python `list` of length exactly 4. -/
def isList4 (v : PyVal) : Bool :=
  match v with
  | PyVal.vList xs => xs.length == 4
  | _ => false

/-- The validation errors the client raises before any network call, each
rendered to the exact `ValueError` message asserted by the tests. -/
inductive VError where
  | boundingBoxFormat : VError
  | imageEmpty : VError
  | dataNotDict : VError
  | dataMissingKeys (missing : List String) : VError
  | locationNotDict : VError
  | locationMissingLatLong : VError
  | videoEmpty : VError
deriving Repr

/-- The human-readable `ValueError` message carried by each validation
error (messages as asserted in `tests/test_edge_cases_validation.py`). -/
def VError.message : VError → String
  | VError.boundingBoxFormat => "bounding_box must be a list of 4 float values"
  | VError.imageEmpty => "image_data cannot be empty"
  | VError.dataNotDict => "data must be a dictionary"
  | VError.dataMissingKeys missing =>
      "data must contain all required keys. Missing: " ++ String.intercalate ", " missing
  | VError.locationNotDict => "location must be a dictionary"
  | VError.locationMissingLatLong =>
      "location must contain \u0027lat\u0027 and \u0027long\u0027 keys"
  | VError.videoEmpty => "video content cannot be empty"

/-- Modelled from the spec: the detections bounding-box validator of the
`sensing_garden_client` package, whose module is not among the provided
sources.  Spec section 4.2 additionally demands numeric elements, but the
repository's own tests (`TestBoundingBoxValidation.test_bounding_box_string_values`,
comment: the client does not validate element types, only list-ness and
length) pin the implemented check to: the value must be a Python `list` of
exactly 4 elements; tuples, strings, mappings and wrong lengths are
rejected with the single message `bounding_box must be a list of 4 float
values`; element types are not inspected. -/
def bounding_box_detection (v : PyVal) : Except VError PyVal :=
  match v with
  | PyVal.vList xs =>
      if xs.length == 4 then Except.ok (PyVal.vList xs)
      else Except.error VError.boundingBoxFormat
  | _ => Except.error VError.boundingBoxFormat

/-- Modelled from the spec: the classifications bounding-box validator —
an identity function; any value is accepted and forwarded unchanged. -/
def bounding_box_classification (v : PyVal) : PyVal := v

/-- Modelled from the spec: the location validator — fails unless the value
is a mapping containing both `lat` and `long` keys; `alt` and arbitrary
extra keys pass through, and the mapping is returned unchanged. -/
def location (v : PyVal) : Except VError PyVal :=
  match v with
  | PyVal.vDict kvs =>
      if hasKey kvs "lat" && hasKey kvs "long" then Except.ok (PyVal.vDict kvs)
      else Except.error VError.locationMissingLatLong
  | _ => Except.error VError.locationNotDict

/-- The 8 keys an environment reading must contain, in the order the
validator checks them. -/
def environmentRequiredKeys : List String :=
  ["pm1p0", "pm2p5", "pm4p0", "pm10p0",
   "ambient_temperature", "ambient_humidity", "voc_index", "nox_index"]

/-- Modelled from the spec: the environment-reading validator — fails
unless the value is a mapping; fails listing all missing keys by name when
any of the 8 required keys are absent; extra keys and arbitrary value
types pass through untouched. -/
def environment_data (v : PyVal) : Except VError PyVal :=
  match v with
  | PyVal.vDict kvs =>
      let missing := environmentRequiredKeys.filter (fun k => !(hasKey kvs k))
      if missing.isEmpty then Except.ok (PyVal.vDict kvs)
      else Except.error (VError.dataMissingKeys missing)
  | _ => Except.error VError.dataNotDict

/-- The required part of a detections payload, in construction order. -/
def detectionsBase (device_id model_id : PyVal) (image_data : List Nat)
    (timestamp : PyVal) : Payload :=
  [("device_id", device_id), ("model_id", model_id),
   ("image", PyVal.vBytes image_data), ("timestamp", timestamp)]

/-- Modelled from the spec: `detections.add` — validates that the image
bytes are non-empty and, when a bounding box is supplied, that it passes
the strict detections validator; on success performs one `post` to the
`detections` endpoint with the payload; a `None` bounding box is omitted
from the payload. -/
def detections_add (device_id model_id : PyVal) (image_data : List Nat)
    (timestamp : PyVal) (bounding_box : Option PyVal) :
    Except VError (String × Payload) :=
  if image_data.isEmpty then Except.error VError.imageEmpty
  else
    match bounding_box with
    | Option.none =>
        Except.ok ("detections", detectionsBase device_id model_id image_data timestamp)
    | Option.some x =>
        match bounding_box_detection x with
        | Except.error e => Except.error e
        | Except.ok y =>
            Except.ok ("detections",
              detectionsBase device_id model_id image_data timestamp ++ [("bounding_box", y)])

/-- The required part of a classifications payload, in construction
order. -/
def classificationsBase (device_id model_id : PyVal) (image_data : List Nat)
    (family genus species : PyVal)
    (family_confidence genus_confidence species_confidence : PyVal)
    (timestamp : PyVal) : Payload :=
  [("device_id", device_id), ("model_id", model_id),
   ("image", PyVal.vBytes image_data),
   ("family", family), ("genus", genus), ("species", species),
   ("family_confidence", family_confidence),
   ("genus_confidence", genus_confidence),
   ("species_confidence", species_confidence),
   ("timestamp", timestamp)]

/-- Modelled from the spec: `classifications.add` — validates only that
the image bytes are non-empty; every optional field (bounding box via the
permissive identity validator, track id, metadata, classification data,
location, environment) is forwarded verbatim when provided and omitted
from the payload when `None`; confidences are forwarded without type
coercion.  Per the repository's tests
(`TestLocationDataValidation.test_classifications_location_flexible`) the
location mapping is NOT validated on this path. -/
def classifications_add (device_id model_id : PyVal) (image_data : List Nat)
    (family genus species : PyVal)
    (family_confidence genus_confidence species_confidence : PyVal)
    (timestamp : PyVal)
    (bounding_box track_id metadata classification_data loc environment :
      Option PyVal) :
    Except VError (String × Payload) :=
  if image_data.isEmpty then Except.error VError.imageEmpty
  else
    Except.ok ("classifications",
      classificationsBase device_id model_id image_data family genus species
          family_confidence genus_confidence species_confidence timestamp
        ++ optEntry "bounding_box" (Option.map bounding_box_classification bounding_box)
        ++ optEntry "track_id" track_id
        ++ optEntry "metadata" metadata
        ++ optEntry "classification_data" classification_data
        ++ optEntry "location" loc
        ++ optEntry "environment" environment)

/-- Modelled from the spec: `environment.add` — runs the environment-data
validator on the required `data` mapping and, when a location is supplied,
the location validator; on success performs one `post` to the
`environment` endpoint; a `None` location is omitted from the payload. -/
def environment_add (device_id : PyVal) (data : PyVal) (timestamp : PyVal)
    (loc : Option PyVal) : Except VError (String × Payload) :=
  match environment_data data with
  | Except.error e => Except.error e
  | Except.ok d =>
      match loc with
      | Option.none =>
          Except.ok ("environment",
            [("device_id", device_id), ("data", d), ("timestamp", timestamp)])
      | Option.some l =>
          match location l with
          | Except.error e => Except.error e
          | Except.ok lv =>
              Except.ok ("environment",
                [("device_id", device_id), ("data", d), ("timestamp", timestamp),
                 ("location", lv)])

/-- Modelled from the spec: `models.create` — required `model_id`, `name`
and `version`; `description` is a parameter whose callers default to the
empty string (not an omit-on-`None` optional), so the payload always
carries a `description` entry. -/
def models_create (model_id name version description : PyVal) :
    Except VError (String × Payload) :=
  Except.ok ("models",
    [("model_id", model_id), ("name", name), ("version", version),
     ("description", description)])

/-- Modelled from the spec: the video upload coordinator
(`videos.upload_video`) — rejects zero-length content in `PREPARING`, and
finalizes a record whose ordering key is the caller-supplied timestamp
taken verbatim; only when the caller supplied no timestamp does the
current wall-clock time `now` enter the record.  `content_type` and
`metadata` are omitted when `None`.  The multipart transfer of the bytes
is not observable in the finalized record and is not modelled. -/
def upload_video (device_id : PyVal) (timestamp : Option String)
    (now : String) (content : List Nat)
    (content_type metadata : Option PyVal) : Except VError Payload :=
  if content.isEmpty then Except.error VError.videoEmpty
  else
    Except.ok
      ([("device_id", device_id),
        ("timestamp", PyVal.vStr (timestamp.getD now))]
        ++ optEntry "content_type" content_type
        ++ optEntry "metadata" metadata)

/-- Concrete sample values drawn from the repository tests, used to
instantiate the theorems below on closed inputs. -/
def sampleDevice : PyVal := PyVal.vStr "test-device"

/-- Sample model id from the tests. -/
def sampleModel : PyVal := PyVal.vStr "test-model"

/-- Sample timestamp from the tests. -/
def sampleTs : PyVal := PyVal.vStr "2024-08-21T12:00:00Z"

/-- Sample non-empty image bytes. -/
def sampleImage : List Nat := [7]

/-- The tuple-shaped bounding box the tests expect detections to reject. -/
def tupleBBox : PyVal :=
  PyVal.vTuple [PyVal.vNum "0.1", PyVal.vNum "0.2", PyVal.vNum "0.8", PyVal.vNum "0.9"]

/-- The valid 4-float bounding box of the tests. -/
def floatBBox : List PyVal :=
  [PyVal.vNum "0.1", PyVal.vNum "0.2", PyVal.vNum "0.8", PyVal.vNum "0.9"]

/-- A complete environment reading carrying all 8 required keys. -/
def completeEnvData : List (String × PyVal) :=
  [("pm1p0", PyVal.vNum "8.2"), ("pm2p5", PyVal.vNum "15.7"),
   ("pm4p0", PyVal.vNum "22.1"), ("pm10p0", PyVal.vNum "28.5"),
   ("ambient_temperature", PyVal.vNum "24.5"),
   ("ambient_humidity", PyVal.vNum "68.2"),
   ("voc_index", PyVal.vInt 120), ("nox_index", PyVal.vInt 85)]

theorem lookup_append (k : String) (l1 l2 : Payload) :
    List.lookup k (l1 ++ l2) =
      (List.lookup k l1).orElse (fun _ => List.lookup k l2) := by
  induction l1 with
  | nil => rfl
  | cons kv l ih =>
      by_cases h : (k == kv.1) = true
      · simp [List.lookup, h, Option.orElse]
      · simp only [Bool.not_eq_true] at h
        simp [List.lookup, h, ih]

theorem keys_append (p q : Payload) : keys (p ++ q) = keys p ++ keys q := by
  simp [keys]

theorem mem_keys_optEntry (s k : String) (v : Option PyVal)
    (h : s ∈ keys (optEntry k v)) : s = k := by
  cases v with
  | none => simp [optEntry, keys] at h
  | some x => simpa [optEntry, keys] using h

theorem lookup_optEntry_self (k : String) (v : Option PyVal) :
    List.lookup k (optEntry k v) = v := by
  cases v with
  | none => rfl
  | some x => simp [optEntry, List.lookup]

theorem lookup_optEntry_ne (s k : String) (v : Option PyVal)
    (h : (s == k) = false) : List.lookup s (optEntry k v) = Option.none := by
  cases v with
  | none => rfl
  | some x => simp [optEntry, List.lookup, h]


/-- C1: for every input X that is not a Python list (for example a tuple or
a string) or is a list whose length is not exactly 4,
detections.add with bounding_box X fails with the validation error whose
message is "bounding_box must be a list of 4 float values" — in this model
an error result, which carries no request, so no network call is made —
while for every list of exactly 4 elements the call succeeds and the
transmitted payload carries exactly the supplied list under
"bounding_box". -/
theorem detections_add_bounding_box_strictness
    (d m t x : PyVal) (img : List Nat) (himg : img ≠ []) :
    (isList4 x = false →
      detections_add d m img t (Option.some x) =
        Except.error VError.boundingBoxFormat) ∧
    (∀ xs : List PyVal, x = PyVal.vList xs → xs.length = 4 →
      detections_add d m img t (Option.some x) =
        Except.ok ("detections",
          detectionsBase d m img t ++ [("bounding_box", x)])) ∧
    VError.message VError.boundingBoxFormat =
      "bounding_box must be a list of 4 float values" := by
  have himg2 : img.isEmpty = false := by
    cases img with
    | nil => exact absurd rfl himg
    | cons a l => rfl
  refine ⟨?_, ?_, rfl⟩
  · intro hx
    cases x <;>
      simp_all [detections_add, bounding_box_detection, isList4, himg2]
  · intro xs hxl h4
    subst hxl
    simp [detections_add, bounding_box_detection, himg2, h4]

/-- Witness for C1: instantiated at the tuple bounding box of the tests
with non-empty image bytes. -/
theorem detections_add_bounding_box_strictness_witness :
    (sampleImage ≠ []) ∧
    ((isList4 tupleBBox = false →
      detections_add sampleDevice sampleModel sampleImage sampleTs
          (Option.some tupleBBox) =
        Except.error VError.boundingBoxFormat) ∧
    (∀ xs : List PyVal, tupleBBox = PyVal.vList xs → xs.length = 4 →
      detections_add sampleDevice sampleModel sampleImage sampleTs
          (Option.some tupleBBox) =
        Except.ok ("detections",
          detectionsBase sampleDevice sampleModel sampleImage sampleTs ++
            [("bounding_box", tupleBBox)])) ∧
    VError.message VError.boundingBoxFormat =
      "bounding_box must be a list of 4 float values") :=
  ⟨by decide,
   detections_add_bounding_box_strictness sampleDevice sampleModel sampleTs
     tupleBBox sampleImage (by decide)⟩

/-- C2: classifications.add never fails for bounding-box format reasons:
for every value X the call succeeds and the transmitted payload carries X
unchanged under "bounding_box", while an explicit None bounding box leaves
the key absent from the payload entirely. -/
theorem classifications_add_bounding_box_permissive
    (d m fam gen sp fc gc sc t : PyVal) (img : List Nat) (himg : img ≠ [])
    (tid md cd loc env : Option PyVal) :
    (∀ x : PyVal, ∃ p : Payload,
      classifications_add d m img fam gen sp fc gc sc t
          (Option.some x) tid md cd loc env =
        Except.ok ("classifications", p) ∧
      List.lookup "bounding_box" p = Option.some x) ∧
    (∃ p : Payload,
      classifications_add d m img fam gen sp fc gc sc t
          Option.none tid md cd loc env =
        Except.ok ("classifications", p) ∧
      "bounding_box" ∉ keys p) := by
  have himg2 : img.isEmpty = false := by
    cases img with
    | nil => exact absurd rfl himg
    | cons a l => rfl
  have hb : List.lookup "bounding_box"
      (classificationsBase d m img fam gen sp fc gc sc t) = Option.none := rfl
  constructor
  · intro x
    refine ⟨classificationsBase d m img fam gen sp fc gc sc t
        ++ optEntry "bounding_box" (Option.some x)
        ++ optEntry "track_id" tid ++ optEntry "metadata" md
        ++ optEntry "classification_data" cd ++ optEntry "location" loc
        ++ optEntry "environment" env, ?_, ?_⟩
    · simp [classifications_add, himg2, bounding_box_classification]
    · simp only [lookup_append]
      simp [hb, lookup_optEntry_self, lookup_optEntry_ne, Option.orElse]
  · refine ⟨classificationsBase d m img fam gen sp fc gc sc t
        ++ optEntry "track_id" tid ++ optEntry "metadata" md
        ++ optEntry "classification_data" cd ++ optEntry "location" loc
        ++ optEntry "environment" env, ?_, ?_⟩
    · simp [classifications_add, himg2, optEntry]
    intro hmem
    simp only [keys_append, List.mem_append] at hmem
    rcases hmem with (((((h | h) | h) | h) | h) | h)
    · revert h
      simp [classificationsBase, keys]
    · exact absurd (mem_keys_optEntry _ _ _ h) (by simp)
    · exact absurd (mem_keys_optEntry _ _ _ h) (by simp)
    · exact absurd (mem_keys_optEntry _ _ _ h) (by simp)
    · exact absurd (mem_keys_optEntry _ _ _ h) (by simp)
    · exact absurd (mem_keys_optEntry _ _ _ h) (by simp)

/-- Witness for C2: instantiated at the classification call of the tests
with non-empty image bytes and the remaining optionals None. -/
theorem classifications_add_bounding_box_permissive_witness :
    (sampleImage ≠ []) ∧
    ((∀ x : PyVal, ∃ p : Payload,
      classifications_add sampleDevice sampleModel sampleImage
          (PyVal.vStr "Nymphalidae") (PyVal.vStr "Danaus")
          (PyVal.vStr "Danaus plexippus")
          (PyVal.vNum "0.95") (PyVal.vNum "0.87") (PyVal.vNum "0.82") sampleTs
          (Option.some x) Option.none Option.none Option.none Option.none
          Option.none =
        Except.ok ("classifications", p) ∧
      List.lookup "bounding_box" p = Option.some x) ∧
    (∃ p : Payload,
      classifications_add sampleDevice sampleModel sampleImage
          (PyVal.vStr "Nymphalidae") (PyVal.vStr "Danaus")
          (PyVal.vStr "Danaus plexippus")
          (PyVal.vNum "0.95") (PyVal.vNum "0.87") (PyVal.vNum "0.82") sampleTs
          Option.none Option.none Option.none Option.none Option.none
          Option.none =
        Except.ok ("classifications", p) ∧
      "bounding_box" ∉ keys p)) :=
  ⟨by decide,
   classifications_add_bounding_box_permissive sampleDevice sampleModel
     (PyVal.vStr "Nymphalidae") (PyVal.vStr "Danaus")
     (PyVal.vStr "Danaus plexippus")
     (PyVal.vNum "0.95") (PyVal.vNum "0.87") (PyVal.vNum "0.82") sampleTs
     sampleImage (by decide)
     Option.none Option.none Option.none Option.none Option.none⟩

/-- Counterexample to C3: the length-4 list of string elements
["0.1","0.2","0.8","0.9"] — which C3 says must be rejected — is accepted
by detections.add, which succeeds and forwards it, exactly as the
repository test test_bounding_box_string_values asserts (its comment: the
client does not validate element types, only list-ness and length). -/
theorem detections_add_accepts_string_elements :
    detections_add sampleDevice sampleModel sampleImage sampleTs
      (Option.some (PyVal.vList
        [PyVal.vStr "0.1", PyVal.vStr "0.2", PyVal.vStr "0.8",
         PyVal.vStr "0.9"])) =
    Except.ok ("detections",
      [("device_id", PyVal.vStr "test-device"),
       ("model_id", PyVal.vStr "test-model"),
       ("image", PyVal.vBytes [7]),
       ("timestamp", PyVal.vStr "2024-08-21T12:00:00Z"),
       ("bounding_box", PyVal.vList
         [PyVal.vStr "0.1", PyVal.vStr "0.2", PyVal.vStr "0.8",
          PyVal.vStr "0.9"])]) ∧
    detections_add sampleDevice sampleModel sampleImage sampleTs
      (Option.some (PyVal.vList
        [PyVal.vStr "0.1", PyVal.vStr "0.2", PyVal.vStr "0.8",
         PyVal.vStr "0.9"])) ≠
    Except.error VError.boundingBoxFormat :=
  ⟨rfl, fun h => nomatch h⟩

/-- C3 as amended: a length-4 list is accepted and forwarded unchanged by
detections.add whatever its element types are — the validator checks only
that the value is a list of length 4, not that elements are numeric. -/
theorem detections_add_bounding_box_length_only
    (d m t : PyVal) (img : List Nat) (himg : img ≠ [])
    (xs : List PyVal) (h4 : xs.length = 4) :
    detections_add d m img t (Option.some (PyVal.vList xs)) =
      Except.ok ("detections",
        detectionsBase d m img t ++ [("bounding_box", PyVal.vList xs)]) := by
  have himg2 : img.isEmpty = false := by
    cases img with
    | nil => exact absurd rfl himg
    | cons a l => rfl
  simp [detections_add, bounding_box_detection, himg2, h4]

/-- Witness for the amended C3: instantiated at the string-element
bounding box of the tests. -/
theorem detections_add_bounding_box_length_only_witness :
    (sampleImage ≠ []) ∧
    ([PyVal.vStr "0.1", PyVal.vStr "0.2", PyVal.vStr "0.8",
      PyVal.vStr "0.9"].length = 4) ∧
    detections_add sampleDevice sampleModel sampleImage sampleTs
        (Option.some (PyVal.vList
          [PyVal.vStr "0.1", PyVal.vStr "0.2", PyVal.vStr "0.8",
           PyVal.vStr "0.9"])) =
      Except.ok ("detections",
        detectionsBase sampleDevice sampleModel sampleImage sampleTs ++
          [("bounding_box", PyVal.vList
            [PyVal.vStr "0.1", PyVal.vStr "0.2", PyVal.vStr "0.8",
             PyVal.vStr "0.9"])]) :=
  ⟨by decide, rfl,
   detections_add_bounding_box_length_only sampleDevice sampleModel sampleTs
     sampleImage (by decide)
     [PyVal.vStr "0.1", PyVal.vStr "0.2", PyVal.vStr "0.8", PyVal.vStr "0.9"]
     rfl⟩


/-- C4: environment.add raises "data must be a dictionary" when the data
argument is not a mapping; when the mapping lacks any of the 8 required
keys it raises the dataMissingKeys error built from exactly the list of
missing required keys (every required key absent from the mapping is in
that list), whose rendered message appends the comma-joined missing names
to "data must contain all required keys. Missing: "; when all 8 keys are
present the call succeeds regardless of extra keys or value types and
forwards the mapping unchanged. -/
theorem environment_add_required_field_completeness (dev t : PyVal) :
    (∀ v : PyVal, isDict v = false →
      environment_add dev v t Option.none = Except.error VError.dataNotDict) ∧
    VError.message VError.dataNotDict = "data must be a dictionary" ∧
    (∀ kvs : List (String × PyVal),
      (environmentRequiredKeys.filter (fun k => !(hasKey kvs k)) ≠ [] →
        environment_add dev (PyVal.vDict kvs) t Option.none =
          Except.error (VError.dataMissingKeys
            (environmentRequiredKeys.filter (fun k => !(hasKey kvs k)))) ∧
        (∀ k : String, k ∈ environmentRequiredKeys → hasKey kvs k = false →
          k ∈ environmentRequiredKeys.filter (fun k2 => !(hasKey kvs k2)))) ∧
      ((∀ k ∈ environmentRequiredKeys, hasKey kvs k = true) →
        environment_add dev (PyVal.vDict kvs) t Option.none =
          Except.ok ("environment",
            [("device_id", dev), ("data", PyVal.vDict kvs),
             ("timestamp", t)]))) ∧
    (∀ missing : List String,
      VError.message (VError.dataMissingKeys missing) =
        "data must contain all required keys. Missing: " ++
          String.intercalate ", " missing) := by
  refine ⟨?_, rfl, ?_, fun _ => rfl⟩
  · intro v hv
    cases v <;> simp_all [environment_add, environment_data, isDict]
  · intro kvs
    constructor
    · intro hne
      have hfe : (environmentRequiredKeys.filter
          (fun k => !(hasKey kvs k))).isEmpty = false := by
        simpa [List.isEmpty_iff] using hne
      constructor
      · simp [environment_add, environment_data, hfe]
      · intro k hk hnk
        simp [List.mem_filter, hk, hnk]
    · intro hall
      have hf : environmentRequiredKeys.filter
          (fun k => !(hasKey kvs k)) = [] := by
        apply List.filter_eq_nil_iff.mpr
        intro a ha
        simp [hall a ha]
      simp [environment_add, environment_data, hf]

/-- Witness for C4: the incomplete reading of the tests (only pm1p0 and
pm2p5) is rejected listing the six missing keys, and the complete reading
is accepted. -/
theorem environment_add_required_field_completeness_witness :
    environment_add sampleDevice
        (PyVal.vDict [("pm1p0", PyVal.vNum "8.2"),
          ("pm2p5", PyVal.vNum "15.7")])
        sampleTs Option.none =
      Except.error (VError.dataMissingKeys
        ["pm4p0", "pm10p0", "ambient_temperature", "ambient_humidity",
         "voc_index", "nox_index"]) ∧
    environment_add sampleDevice (PyVal.vDict completeEnvData) sampleTs
        Option.none =
      Except.ok ("environment",
        [("device_id", sampleDevice), ("data", PyVal.vDict completeEnvData),
         ("timestamp", sampleTs)]) := by
  have h := environment_add_required_field_completeness sampleDevice sampleTs
  constructor
  · exact ((h.2.2.1
      [("pm1p0", PyVal.vNum "8.2"), ("pm2p5", PyVal.vNum "15.7")]).1
      (by decide)).1
  · exact (h.2.2.1 completeEnvData).2 (by decide)

/-- C5: in every modelled add operation, an optional field explicitly set
to None leaves its key absent from the transmitted body: with all
optionals None, the payload of each operation consists of exactly its
required keys — no key is ever present carrying an unset value.  (The
models.create description argument is a plain parameter whose callers
default to the empty string, not an omit-on-None optional.) -/
theorem add_none_optionals_omitted
    (d m fam gen sp fc gc sc t dev tv : PyVal) (img : List Nat)
    (himg : img ≠ [])
    (content : List Nat) (hc : content ≠ [])
    (kvs : List (String × PyVal))
    (hdata : environmentRequiredKeys.filter (fun k => !(hasKey kvs k)) = [])
    (T now : String) :
    (detections_add d m img t Option.none =
        Except.ok ("detections", detectionsBase d m img t) ∧
      keys (detectionsBase d m img t) =
        ["device_id", "model_id", "image", "timestamp"]) ∧
    (classifications_add d m img fam gen sp fc gc sc t
        Option.none Option.none Option.none Option.none Option.none
        Option.none =
        Except.ok ("classifications",
          classificationsBase d m img fam gen sp fc gc sc t) ∧
      keys (classificationsBase d m img fam gen sp fc gc sc t) =
        ["device_id", "model_id", "image", "family", "genus", "species",
         "family_confidence", "genus_confidence", "species_confidence",
         "timestamp"]) ∧
    (environment_add dev (PyVal.vDict kvs) tv Option.none =
        Except.ok ("environment",
          [("device_id", dev), ("data", PyVal.vDict kvs),
           ("timestamp", tv)]) ∧
      keys [("device_id", dev), ("data", (PyVal.vDict kvs : PyVal)),
            ("timestamp", tv)] = ["device_id", "data", "timestamp"]) ∧
    (upload_video dev (Option.some T) now content Option.none Option.none =
        Except.ok [("device_id", dev), ("timestamp", PyVal.vStr T)] ∧
      keys [("device_id", dev), ("timestamp", (PyVal.vStr T : PyVal))] =
        ["device_id", "timestamp"]) := by
  have himg2 : img.isEmpty = false := by
    cases img with
    | nil => exact absurd rfl himg
    | cons a l => rfl
  have hc2 : content.isEmpty = false := by
    cases content with
    | nil => exact absurd rfl hc
    | cons a l => rfl
  have hfe : (environmentRequiredKeys.filter
      (fun k => !(hasKey kvs k))).isEmpty = true := by
    simp [hdata]
  refine ⟨⟨?_, rfl⟩, ⟨?_, rfl⟩, ⟨?_, rfl⟩, ⟨?_, rfl⟩⟩
  · simp [detections_add, himg2]
  · simp [classifications_add, himg2, optEntry]
  · simp [environment_add, environment_data, hfe]
  · simp [upload_video, hc2, optEntry]

/-- Witness for C5: instantiated at the concrete test values, with the
complete environment reading. -/
theorem add_none_optionals_omitted_witness :
    (sampleImage ≠ []) ∧ (sampleImage ≠ []) ∧
    (environmentRequiredKeys.filter
        (fun k => !(hasKey completeEnvData k)) = []) ∧
    ((detections_add sampleDevice sampleModel sampleImage sampleTs
        Option.none =
        Except.ok ("detections",
          detectionsBase sampleDevice sampleModel sampleImage sampleTs) ∧
      keys (detectionsBase sampleDevice sampleModel sampleImage sampleTs) =
        ["device_id", "model_id", "image", "timestamp"]) ∧
    (classifications_add sampleDevice sampleModel sampleImage
        (PyVal.vStr "Nymphalidae") (PyVal.vStr "Danaus")
        (PyVal.vStr "Danaus plexippus")
        (PyVal.vNum "0.95") (PyVal.vNum "0.87") (PyVal.vNum "0.82") sampleTs
        Option.none Option.none Option.none Option.none Option.none
        Option.none =
        Except.ok ("classifications",
          classificationsBase sampleDevice sampleModel sampleImage
            (PyVal.vStr "Nymphalidae") (PyVal.vStr "Danaus")
            (PyVal.vStr "Danaus plexippus")
            (PyVal.vNum "0.95") (PyVal.vNum "0.87") (PyVal.vNum "0.82")
            sampleTs) ∧
      keys (classificationsBase sampleDevice sampleModel sampleImage
          (PyVal.vStr "Nymphalidae") (PyVal.vStr "Danaus")
          (PyVal.vStr "Danaus plexippus")
          (PyVal.vNum "0.95") (PyVal.vNum "0.87") (PyVal.vNum "0.82")
          sampleTs) =
        ["device_id", "model_id", "image", "family", "genus", "species",
         "family_confidence", "genus_confidence", "species_confidence",
         "timestamp"]) ∧
    (environment_add sampleDevice (PyVal.vDict completeEnvData) sampleTs
        Option.none =
        Except.ok ("environment",
          [("device_id", sampleDevice),
           ("data", PyVal.vDict completeEnvData),
           ("timestamp", sampleTs)]) ∧
      keys [("device_id", sampleDevice),
            ("data", (PyVal.vDict completeEnvData : PyVal)),
            ("timestamp", sampleTs)] = ["device_id", "data", "timestamp"]) ∧
    (upload_video sampleDevice (Option.some "2025-04-01T12:00:00+00:00")
        "2025-04-02T12:00:00+00:00" sampleImage Option.none Option.none =
        Except.ok [("device_id", sampleDevice),
          ("timestamp", PyVal.vStr "2025-04-01T12:00:00+00:00")] ∧
      keys [("device_id", sampleDevice),
        ("timestamp",
          (PyVal.vStr "2025-04-01T12:00:00+00:00" : PyVal))] =
        ["device_id", "timestamp"])) :=
  ⟨by decide, by decide, by decide,
   add_none_optionals_omitted sampleDevice sampleModel
     (PyVal.vStr "Nymphalidae") (PyVal.vStr "Danaus")
     (PyVal.vStr "Danaus plexippus")
     (PyVal.vNum "0.95") (PyVal.vNum "0.87") (PyVal.vNum "0.82") sampleTs
     sampleDevice sampleTs sampleImage (by decide) sampleImage (by decide)
     completeEnvData (by decide) "2025-04-01T12:00:00+00:00"
     "2025-04-02T12:00:00+00:00"⟩


/-- C6: for every location value passed to environment.add — here with a
complete data mapping, so that the location check is reached — a
non-mapping raises "location must be a dictionary"; a mapping missing the
lat key or the long key raises the locationMissingLatLong error (whose
message names both keys); and whenever both lat and long are present the
call succeeds, alt or arbitrary extra keys never cause rejection, and the
location mapping is forwarded unchanged. -/
theorem environment_add_location_required_keys (dev t : PyVal)
    (kvs : List (String × PyVal))
    (hdata : environmentRequiredKeys.filter (fun k => !(hasKey kvs k)) = []) :
    (∀ l : PyVal, isDict l = false →
      environment_add dev (PyVal.vDict kvs) t (Option.some l) =
        Except.error VError.locationNotDict) ∧
    VError.message VError.locationNotDict = "location must be a dictionary" ∧
    (∀ lk : List (String × PyVal),
      hasKey lk "lat" = false ∨ hasKey lk "long" = false →
      environment_add dev (PyVal.vDict kvs) t (Option.some (PyVal.vDict lk)) =
        Except.error VError.locationMissingLatLong) ∧
    VError.message VError.locationMissingLatLong =
      "location must contain \u0027lat\u0027 and \u0027long\u0027 keys" ∧
    (∀ lk : List (String × PyVal),
      hasKey lk "lat" = true → hasKey lk "long" = true →
      environment_add dev (PyVal.vDict kvs) t (Option.some (PyVal.vDict lk)) =
        Except.ok ("environment",
          [("device_id", dev), ("data", PyVal.vDict kvs), ("timestamp", t),
           ("location", PyVal.vDict lk)])) := by
  have hfe : (environmentRequiredKeys.filter
      (fun k => !(hasKey kvs k))).isEmpty = true := by
    simp [hdata]
  refine ⟨?_, rfl, ?_, rfl, ?_⟩
  · intro l hl
    cases l <;> simp_all [environment_add, environment_data, location, isDict, hfe]
  · intro lk hlk
    rcases hlk with h | h <;>
      simp [environment_add, environment_data, location, hfe, h]
  · intro lk hlat hlong
    simp [environment_add, environment_data, location, hfe, hlat, hlong]

/-- Witness for C6: instantiated at the complete environment reading of
the tests. -/
theorem environment_add_location_required_keys_witness :
    (environmentRequiredKeys.filter
        (fun k => !(hasKey completeEnvData k)) = []) ∧
    ((∀ l : PyVal, isDict l = false →
      environment_add sampleDevice (PyVal.vDict completeEnvData) sampleTs
          (Option.some l) =
        Except.error VError.locationNotDict) ∧
    VError.message VError.locationNotDict = "location must be a dictionary" ∧
    (∀ lk : List (String × PyVal),
      hasKey lk "lat" = false ∨ hasKey lk "long" = false →
      environment_add sampleDevice (PyVal.vDict completeEnvData) sampleTs
          (Option.some (PyVal.vDict lk)) =
        Except.error VError.locationMissingLatLong) ∧
    VError.message VError.locationMissingLatLong =
      "location must contain \u0027lat\u0027 and \u0027long\u0027 keys" ∧
    (∀ lk : List (String × PyVal),
      hasKey lk "lat" = true → hasKey lk "long" = true →
      environment_add sampleDevice (PyVal.vDict completeEnvData) sampleTs
          (Option.some (PyVal.vDict lk)) =
        Except.ok ("environment",
          [("device_id", sampleDevice), ("data", PyVal.vDict completeEnvData),
           ("timestamp", sampleTs), ("location", PyVal.vDict lk)]))) :=
  ⟨by decide,
   environment_add_location_required_keys sampleDevice sampleTs
     completeEnvData (by decide)⟩

/-- Counterexample to C7: a classifications.add call whose location
mapping has neither a lat key nor a long key (keys x and y, one of the
variations of test_classifications_location_flexible) does not raise — it
succeeds and forwards the mapping verbatim, so classifications.add does
not apply the location validator. -/
theorem classifications_add_location_unvalidated_counterexample :
    classifications_add (PyVal.vStr "test-device") (PyVal.vStr "test-model")
      [7]
      (PyVal.vStr "Nymphalidae") (PyVal.vStr "Danaus")
      (PyVal.vStr "Danaus plexippus")
      (PyVal.vNum "0.95") (PyVal.vNum "0.87") (PyVal.vNum "0.82")
      (PyVal.vStr "2024-08-21T12:00:00Z")
      Option.none Option.none Option.none Option.none
      (Option.some (PyVal.vDict
        [("x", PyVal.vNum "40.7128"), ("y", PyVal.vNum "-74.0060")]))
      Option.none =
    Except.ok ("classifications",
      [("device_id", PyVal.vStr "test-device"),
       ("model_id", PyVal.vStr "test-model"),
       ("image", PyVal.vBytes [7]),
       ("family", PyVal.vStr "Nymphalidae"),
       ("genus", PyVal.vStr "Danaus"),
       ("species", PyVal.vStr "Danaus plexippus"),
       ("family_confidence", PyVal.vNum "0.95"),
       ("genus_confidence", PyVal.vNum "0.87"),
       ("species_confidence", PyVal.vNum "0.82"),
       ("timestamp", PyVal.vStr "2024-08-21T12:00:00Z"),
       ("location", PyVal.vDict
         [("x", PyVal.vNum "40.7128"), ("y", PyVal.vNum "-74.0060")])]) ∧
    classifications_add (PyVal.vStr "test-device") (PyVal.vStr "test-model")
      [7]
      (PyVal.vStr "Nymphalidae") (PyVal.vStr "Danaus")
      (PyVal.vStr "Danaus plexippus")
      (PyVal.vNum "0.95") (PyVal.vNum "0.87") (PyVal.vNum "0.82")
      (PyVal.vStr "2024-08-21T12:00:00Z")
      Option.none Option.none Option.none Option.none
      (Option.some (PyVal.vDict
        [("x", PyVal.vNum "40.7128"), ("y", PyVal.vNum "-74.0060")]))
      Option.none ≠
    Except.error VError.locationMissingLatLong :=
  ⟨rfl, fun h => nomatch h⟩

/-- C7 as amended: classifications.add forwards any supplied location
value verbatim without validating it — a location mapping lacking lat or
long does not raise (the location validator is applied only on the
environment.add path). -/
theorem classifications_add_location_passthrough
    (d m fam gen sp fc gc sc t l : PyVal) (img : List Nat) (himg : img ≠ [])
    (bb tid md cd env : Option PyVal) :
    ∃ p : Payload,
      classifications_add d m img fam gen sp fc gc sc t
          bb tid md cd (Option.some l) env =
        Except.ok ("classifications", p) ∧
      List.lookup "location" p = Option.some l := by
  have himg2 : img.isEmpty = false := by
    cases img with
    | nil => exact absurd rfl himg
    | cons a l => rfl
  have hl : List.lookup "location"
      (classificationsBase d m img fam gen sp fc gc sc t) = Option.none := rfl
  refine ⟨classificationsBase d m img fam gen sp fc gc sc t
      ++ optEntry "bounding_box" (Option.map bounding_box_classification bb)
      ++ optEntry "track_id" tid ++ optEntry "metadata" md
      ++ optEntry "classification_data" cd
      ++ optEntry "location" (Option.some l)
      ++ optEntry "environment" env, ?_, ?_⟩
  · simp [classifications_add, himg2]
  · simp only [lookup_append]
    simp [hl, lookup_optEntry_self, lookup_optEntry_ne, Option.orElse]

/-- Witness for the amended C7: instantiated at the latitude/longitude
keyed mapping of the tests. -/
theorem classifications_add_location_passthrough_witness :
    (sampleImage ≠ []) ∧
    (∃ p : Payload,
      classifications_add sampleDevice sampleModel sampleImage
          (PyVal.vStr "Nymphalidae") (PyVal.vStr "Danaus")
          (PyVal.vStr "Danaus plexippus")
          (PyVal.vNum "0.95") (PyVal.vNum "0.87") (PyVal.vNum "0.82") sampleTs
          Option.none Option.none Option.none Option.none
          (Option.some (PyVal.vDict
            [("latitude", PyVal.vNum "40.7128"),
             ("longitude", PyVal.vNum "-74.0060")]))
          Option.none =
        Except.ok ("classifications", p) ∧
      List.lookup "location" p =
        Option.some (PyVal.vDict
          [("latitude", PyVal.vNum "40.7128"),
           ("longitude", PyVal.vNum "-74.0060")])) :=
  ⟨by decide,
   classifications_add_location_passthrough sampleDevice sampleModel
     (PyVal.vStr "Nymphalidae") (PyVal.vStr "Danaus")
     (PyVal.vStr "Danaus plexippus")
     (PyVal.vNum "0.95") (PyVal.vNum "0.87") (PyVal.vNum "0.82") sampleTs
     (PyVal.vDict [("latitude", PyVal.vNum "40.7128"),
       ("longitude", PyVal.vNum "-74.0060")])
     sampleImage (by decide)
     Option.none Option.none Option.none Option.none Option.none⟩

/-- C9: the upload coordinator persists an explicitly supplied timestamp T
verbatim in the finalized record and never substitutes the wall clock:
the produced record is identical under any two clock readings, and its
timestamp field equals exactly T. -/
theorem upload_video_timestamp_verbatim
    (dev : PyVal) (T now now2 : String) (content : List Nat)
    (hc : content ≠ []) (ct md : Option PyVal) :
    upload_video dev (Option.some T) now content ct md =
      upload_video dev (Option.some T) now2 content ct md ∧
    ∃ p : Payload,
      upload_video dev (Option.some T) now content ct md = Except.ok p ∧
      List.lookup "timestamp" p = Option.some (PyVal.vStr T) := by
  have hc2 : content.isEmpty = false := by
    cases content with
    | nil => exact absurd rfl hc
    | cons a l => rfl
  have ht : List.lookup "timestamp"
      [("device_id", dev), ("timestamp", (PyVal.vStr T : PyVal))] =
      Option.some (PyVal.vStr T) := rfl
  constructor
  · rfl
  · refine ⟨[("device_id", dev), ("timestamp", PyVal.vStr T)]
        ++ optEntry "content_type" ct ++ optEntry "metadata" md, ?_, ?_⟩
    · simp [upload_video, hc2]
    · simp only [lookup_append]
      simp [ht, Option.orElse]

/-- Witness for C9: a timestamp one day before the clock reading, as in
test_video_upload_respects_provided_timestamp. -/
theorem upload_video_timestamp_verbatim_witness :
    (sampleImage ≠ []) ∧
    (upload_video (PyVal.vStr "test-device-2025")
        (Option.some "2025-04-01T12:00:00+00:00") "2025-04-02T12:00:00+00:00"
        sampleImage (Option.some (PyVal.vStr "video/mp4")) Option.none =
      upload_video (PyVal.vStr "test-device-2025")
        (Option.some "2025-04-01T12:00:00+00:00") "2025-04-02T12:00:01+00:00"
        sampleImage (Option.some (PyVal.vStr "video/mp4")) Option.none ∧
    ∃ p : Payload,
      upload_video (PyVal.vStr "test-device-2025")
          (Option.some "2025-04-01T12:00:00+00:00")
          "2025-04-02T12:00:00+00:00"
          sampleImage (Option.some (PyVal.vStr "video/mp4")) Option.none =
        Except.ok p ∧
      List.lookup "timestamp" p =
        Option.some (PyVal.vStr "2025-04-01T12:00:00+00:00")) :=
  ⟨by decide,
   upload_video_timestamp_verbatim (PyVal.vStr "test-device-2025")
     "2025-04-01T12:00:00+00:00" "2025-04-02T12:00:00+00:00"
     "2025-04-02T12:00:01+00:00" sampleImage (by decide)
     (Option.some (PyVal.vStr "video/mp4")) Option.none⟩

/-- C10: the client performs no format validation on timestamps — for
every timestamp value, of any representation, detections.add and
classifications.add succeed and the transmitted payload carries exactly
the supplied value under "timestamp". -/
theorem add_timestamp_passthrough
    (d m fam gen sp fc gc sc t : PyVal) (img : List Nat) (himg : img ≠ [])
    (xs : List PyVal) (h4 : xs.length = 4)
    (bb tid md cd loc env : Option PyVal) :
    (∃ p : Payload,
      detections_add d m img t (Option.some (PyVal.vList xs)) =
        Except.ok ("detections", p) ∧
      List.lookup "timestamp" p = Option.some t) ∧
    (∃ p : Payload,
      classifications_add d m img fam gen sp fc gc sc t bb tid md cd loc env =
        Except.ok ("classifications", p) ∧
      List.lookup "timestamp" p = Option.some t) := by
  have himg2 : img.isEmpty = false := by
    cases img with
    | nil => exact absurd rfl himg
    | cons a l => rfl
  have htd : List.lookup "timestamp" (detectionsBase d m img t) =
      Option.some t := rfl
  have htc : List.lookup "timestamp"
      (classificationsBase d m img fam gen sp fc gc sc t) =
      Option.some t := rfl
  constructor
  · refine ⟨detectionsBase d m img t ++ [("bounding_box", PyVal.vList xs)],
      ?_, ?_⟩
    · simp [detections_add, bounding_box_detection, himg2, h4]
    · simp only [lookup_append]
      simp [htd, Option.orElse]
  · refine ⟨classificationsBase d m img fam gen sp fc gc sc t
        ++ optEntry "bounding_box" (Option.map bounding_box_classification bb)
        ++ optEntry "track_id" tid ++ optEntry "metadata" md
        ++ optEntry "classification_data" cd ++ optEntry "location" loc
        ++ optEntry "environment" env, ?_, ?_⟩
    · simp [classifications_add, himg2]
    · simp only [lookup_append]
      simp [htc, Option.orElse]

/-- Witness for C10: instantiated at the invalid-format timestamp string
of test_timestamp_format_flexibility. -/
theorem add_timestamp_passthrough_witness :
    (sampleImage ≠ []) ∧ (floatBBox.length = 4) ∧
    ((∃ p : Payload,
      detections_add sampleDevice sampleModel sampleImage
          (PyVal.vStr "invalid-timestamp")
          (Option.some (PyVal.vList floatBBox)) =
        Except.ok ("detections", p) ∧
      List.lookup "timestamp" p =
        Option.some (PyVal.vStr "invalid-timestamp")) ∧
    (∃ p : Payload,
      classifications_add sampleDevice sampleModel sampleImage
          (PyVal.vStr "Nymphalidae") (PyVal.vStr "Danaus")
          (PyVal.vStr "Danaus plexippus")
          (PyVal.vNum "0.95") (PyVal.vNum "0.87") (PyVal.vNum "0.82")
          (PyVal.vStr "invalid-timestamp")
          Option.none Option.none Option.none Option.none Option.none
          Option.none =
        Except.ok ("classifications", p) ∧
      List.lookup "timestamp" p =
        Option.some (PyVal.vStr "invalid-timestamp"))) :=
  ⟨by decide, rfl,
   add_timestamp_passthrough sampleDevice sampleModel
     (PyVal.vStr "Nymphalidae") (PyVal.vStr "Danaus")
     (PyVal.vStr "Danaus plexippus")
     (PyVal.vNum "0.95") (PyVal.vNum "0.87") (PyVal.vNum "0.82")
     (PyVal.vStr "invalid-timestamp") sampleImage (by decide) floatBBox rfl
     Option.none Option.none Option.none Option.none Option.none
     Option.none⟩

end SensingGarden
